import Mathlib

/-!
Shallow embedding of the product-catalog backend (`src/main.py`, `src/schemas.py`).

Stored documents are untyped key/value records; we model values with the
inductive `BVal` (string, number, boolean, null, ObjectId, list) and a
document as an association list.  Python's coercions (`str`, `float`,
`bool`) and pydantic field validation are modelled explicitly; numbers are
modelled as rationals (no claim depends on floating-point rounding).
-/

inductive BVal where
  | str (s : String)
  | num (q : Rat)
  | bool (b : Bool)
  | null
  | oid (s : String)
  | list (xs : List BVal)
deriving Repr

abbrev Doc := List (String × BVal)

/-- Association-list lookup; first binding wins (Python dicts have unique keys). -/
def dget : Doc → String → Option BVal
  | [], _ => none
  | (k, v) :: r, key => if k = key then some v else dget r key

/-- `doc.get(k)`: the stored value, or Python `None` when the key is absent. -/
def pyGet (d : Doc) (k : String) : BVal := (dget d k).getD BVal.null

/-- `doc.get(k, dflt)`: the stored value, or `dflt` when the key is absent. -/
def pyGetD (d : Doc) (k : String) (dflt : BVal) : BVal := (dget d k).getD dflt

mutual
/-- Structural boolean equality on `BVal`. -/
def BVal.beq : BVal → BVal → Bool
  | .str a, .str b => a == b
  | .num a, .num b => a == b
  | .bool a, .bool b => a == b
  | .null, .null => true
  | .oid a, .oid b => a == b
  | .list a, .list b => BVal.beqList a b
  | _, _ => false

def BVal.beqList : List BVal → List BVal → Bool
  | [], [] => true
  | x :: xs, y :: ys => BVal.beq x y && BVal.beqList xs ys
  | _, _ => false
end

/-! ### Python primitive coercions -/

/-- Python `str(x)` (total).  `str` of an `ObjectId` is its hex string; the
renderings of numbers and lists are approximations — no stored document in any
theorem's domain carries a number or list where `str` is applied. -/
def pyStr : BVal → String
  | .str s => s
  | .num q => toString q
  | .bool b => if b then "True" else "False"
  | .null => "None"
  | .oid s => s
  | .list _ => "[...]"

/-- Python `bool(x)` (total): falsy values are `None`, `False`, `0`, `""`, `[]`. -/
def pyBool : BVal → Bool
  | .str s => !(s == "")
  | .num q => !(q == 0)
  | .bool b => b
  | .null => false
  | .oid _ => true
  | .list xs => !xs.isEmpty

def allDigits (l : List Char) : Bool := l.all Char.isDigit

def digitsToNat (l : List Char) : Nat := l.foldl (fun a c => a * 10 + (c.toNat - 48)) 0

/-- Python `float(s)` on a string: an optional sign, then decimal digits with at
most one point (covers `"7"`, `"2.5"`, `"-1."`, `".5"`).  Exponents, `inf`,
`nan` and surrounding whitespace are outside the modelled fragment; no theorem
quantifies over documents carrying numeric strings. -/
def parsePyFloat (s : String) : Option Rat :=
  let (neg, body) :=
    if s.startsWith "-" then (true, s.drop 1)
    else if s.startsWith "+" then (false, s.drop 1) else (false, s)
  let mk : Rat → Option Rat := fun q => some (if neg then -q else q)
  match body.splitOn "." with
  | [a] =>
    if a ≠ "" && allDigits a.data then mk (digitsToNat a.data : Rat) else none
  | [a, b] =>
    if (a ≠ "" || b ≠ "") && allDigits a.data && allDigits b.data then
      mk ((digitsToNat a.data : Rat) + (digitsToNat b.data : Rat) / ((10 : Rat) ^ b.length))
    else none
  | _ => none

/-- Python `float(x)`: numbers pass through, booleans become 0/1, strings are
parsed, everything else raises `TypeError`. -/
def pyFloat : BVal → Except String Rat
  | .num q => .ok q
  | .bool b => .ok (if b then 1 else 0)
  | .str s =>
    match parsePyFloat s with
    | some q => .ok q
    | none => .error "ValueError: could not convert string to float"
  | .null => .error "TypeError: float() argument must be a string or a real number, not NoneType"
  | .oid _ => .error "TypeError: float() argument must be a string or a real number"
  | .list _ => .error "TypeError: float() argument must be a string or a real number"

/-! ### Output models (`ProductOut`, `BannerOut` in `src/main.py`) and the
pydantic checks their constructors perform.  A required `str` field rejects
any non-string value (in particular `None`); an `Optional[str]` field accepts
`None` as absence. -/

structure ProductOut where
  id : String
  title : String
  description : Option String
  price : Rat
  category : String
  images : List String
  sizes : List String
  in_stock : Bool
  is_trending : Bool
  is_new : Bool
  is_best_seller : Bool
  season : Option String
  on_sale : Bool
  sale_price : Option Rat
deriving Repr, DecidableEq

structure BannerOut where
  id : String
  title : String
  subtitle : Option String
  image : Option String
  slug : String
deriving Repr, DecidableEq

/-- pydantic validation of a required `str` field. -/
def reqStr (fname : String) : BVal → Except String String
  | .str s => .ok s
  | _ => .error (fname ++ ": Input should be a valid string")

/-- pydantic validation of an `Optional[str]` field. -/
def optStr (fname : String) : BVal → Except String (Option String)
  | .null => .ok none
  | .str s => .ok (some s)
  | _ => .error (fname ++ ": Input should be a valid string")

/-- `[str(x) for x in v]`: iterating a list maps `str` over it, iterating a
string yields its characters, iterating anything else raises `TypeError`. -/
def pyStrList : BVal → Except String (List String)
  | .list xs => .ok (xs.map pyStr)
  | .str s => .ok (s.data.map fun c => String.mk [c])
  | _ => .error "TypeError: object is not iterable"

/-- `float(doc.get("sale_price")) if doc.get("sale_price") is not None else None`. -/
def optSalePrice : BVal → Except String (Option Rat)
  | .null => .ok none
  | v => (pyFloat v).map Option.some

/-- `serialize_product` (`src/main.py` lines 44–60).  Each fallible field
coercion/validation is evaluated; the first failure raises (the result is an
error exactly when some field fails — theorems never inspect the message). -/
def serialize_product (d : Doc) : Except String ProductOut :=
  match reqStr "title" (pyGet d "title"),
        optStr "description" (pyGet d "description"),
        pyFloat (pyGetD d "price" (BVal.num 0)),
        reqStr "category" (pyGet d "category"),
        pyStrList (pyGetD d "images" (BVal.list [])),
        pyStrList (pyGetD d "sizes" (BVal.list [])),
        optStr "season" (pyGet d "season"),
        optSalePrice (pyGet d "sale_price") with
  | .ok titlev, .ok descriptionv, .ok pricev, .ok categoryv,
    .ok imagesv, .ok sizesv, .ok seasonv, .ok salev =>
      .ok { id := pyStr (pyGet d "_id"),
            title := titlev,
            description := descriptionv,
            price := pricev,
            category := categoryv,
            images := imagesv,
            sizes := sizesv,
            in_stock := pyBool (pyGetD d "in_stock" (BVal.bool true)),
            is_trending := pyBool (pyGetD d "is_trending" (BVal.bool false)),
            is_new := pyBool (pyGetD d "is_new" (BVal.bool false)),
            is_best_seller := pyBool (pyGetD d "is_best_seller" (BVal.bool false)),
            season := seasonv,
            on_sale := pyBool (pyGetD d "on_sale" (BVal.bool false)),
            sale_price := salev }
  | .error e, _, _, _, _, _, _, _ => .error e
  | _, .error e, _, _, _, _, _, _ => .error e
  | _, _, .error e, _, _, _, _, _ => .error e
  | _, _, _, .error e, _, _, _, _ => .error e
  | _, _, _, _, .error e, _, _, _ => .error e
  | _, _, _, _, _, .error e, _, _ => .error e
  | _, _, _, _, _, _, .error e, _ => .error e
  | _, _, _, _, _, _, _, .error e => .error e

/-- `serialize_banner` (`src/main.py` lines 62–69). -/
def serialize_banner (d : Doc) : Except String BannerOut :=
  match reqStr "title" (pyGet d "title"),
        optStr "subtitle" (pyGet d "subtitle"),
        optStr "image" (pyGet d "image"),
        reqStr "slug" (pyGet d "slug") with
  | .ok titlev, .ok subtitlev, .ok imagev, .ok slugv =>
      .ok { id := pyStr (pyGet d "_id"),
            title := titlev,
            subtitle := subtitlev,
            image := imagev,
            slug := slugv }
  | .error e, _, _, _ => .error e
  | _, .error e, _, _ => .error e
  | _, _, .error e, _ => .error e
  | _, _, _, .error e => .error e

/-! ### Query-filter builder (`list_products`, `src/main.py` lines 113–141) -/

/-- The optional query parameters of `GET /api/products` (besides `limit`). -/
structure ListParams where
  category : Option String := none
  trending : Option Bool := none
  new : Option Bool := none
  best : Option Bool := none
  season : Option String := none
  sale : Option Bool := none
  q : Option String := none
deriving Repr, DecidableEq

/-- One condition of a MongoDB filter document: equality with a string,
equality with a boolean, or `{"$regex": pat, "$options": "i"}`. -/
inductive FCond where
  | eqStr (s : String)
  | eqBool (b : Bool)
  | regexCI (pat : String)
deriving Repr, DecidableEq

abbrev MFilter := List (String × FCond)

/-- `if param:` — a string parameter is truthy when present and non-empty. -/
def strCond (field : String) (v : Option String) (mk : String → FCond) : MFilter :=
  match v with
  | some s => if s = "" then [] else [(field, mk s)]
  | none => []

/-- `if param is not None:` — a boolean parameter fires whenever present. -/
def boolCond (field : String) (v : Option Bool) : MFilter :=
  match v with
  | some b => [(field, FCond.eqBool b)]
  | none => []

/-- The filter `filt` built by `list_products` (lines 125–139), conditions in
source order; the seven stored field names are pairwise distinct, so the
association list is a faithful image of the Python dict. -/
def buildProductFilter (p : ListParams) : MFilter :=
  strCond "category" p.category FCond.eqStr ++
  strCond "season" p.season FCond.eqStr ++
  boolCond "is_trending" p.trending ++
  boolCond "is_new" p.new ++
  boolCond "is_best_seller" p.best ++
  boolCond "on_sale" p.sale ++
  strCond "title" p.q FCond.regexCI

/-! ### MongoDB `$regex` evaluation, modelled.

The repository hands the raw string `q` to the store as a PCRE pattern with
option `i`.  The store is an external collaborator; we model pattern
evaluation for the fragment exercised by the theorems below: literal
characters and the metacharacter `.` (any single character), matched
case-insensitively and unanchored.  Patterns containing other PCRE
metacharacters are outside the modelled fragment and no theorem quantifies
over them. -/

inductive PTok where
  | lit (c : Char)
  | dot
deriving Repr, DecidableEq

def tokMatch : PTok → Char → Bool
  | .lit a, c => a.toLower == c.toLower
  | .dot, _ => true

/-- Does the pattern match a prefix of the character list? -/
def matchHere : List PTok → List Char → Bool
  | [], _ => true
  | _ :: _, [] => false
  | p :: ps, c :: cs => tokMatch p c && matchHere ps cs

/-- Unanchored match: the pattern matches starting at some position. -/
def matchAnywhere (p : List PTok) : List Char → Bool
  | [] => matchHere p []
  | c :: cs => matchHere p (c :: cs) || matchAnywhere p cs

def parsePat (q : String) : List PTok :=
  q.data.map fun c => if c = '.' then PTok.dot else PTok.lit c

/-- Case-insensitive unanchored PCRE match of pattern `q` against `s`
(modelled fragment: literals and `.`). -/
def regexMatchCI (q s : String) : Bool :=
  matchAnywhere (parsePat q) s.data

/-- PCRE metacharacters: a pattern free of them is matched literally. -/
def isRegexMetaChar (c : Char) : Bool :=
  c ∈ ['.', '^', '$', '*', '+', '?', '(', ')', '[', ']', '{', '}', '|', '\\']

/-- Case-insensitive prefix test on character lists. -/
def startsWithCI : List Char → List Char → Bool
  | [], _ => true
  | _ :: _, [] => false
  | q :: qs, c :: cs => (q.toLower == c.toLower) && startsWithCI qs cs

/-- Case-insensitive occurrence of `q` somewhere inside `s`. -/
def containsCI (q : List Char) : List Char → Bool
  | [] => startsWithCI q []
  | c :: cs => startsWithCI q (c :: cs) || containsCI q cs

/-- `q` occurs as a case-insensitive substring of `s`, unanchored. -/
def containsCIStr (q s : String) : Bool := containsCI q.data s.data

/-- Evaluation of one filter condition on a stored document (MongoDB
semantics, modelled: an equality condition requires the field to be present
and equal; the array-containment special case never arises for the fields
filtered here). -/
def condHolds (d : Doc) (field : String) : FCond → Bool
  | .eqStr s =>
    match dget d field with
    | some v => BVal.beq v (BVal.str s)
    | none => false
  | .eqBool b =>
    match dget d field with
    | some v => BVal.beq v (BVal.bool b)
    | none => false
  | .regexCI pat =>
    match dget d field with
    | some (.str s) => regexMatchCI pat s
    | _ => false

/-- A document matches a filter when every condition holds (conjunction). -/
def docMatches (d : Doc) (f : MFilter) : Bool :=
  f.all fun fc => condHolds d fc.1 fc.2

/-! ### Document store and endpoints -/

/-- The two collections of the store (`banner`, `product`).  Modelled from the
spec: `database.py` (the Document Store Adapter, §4.2) is not under `src/`;
`find`/`findOne`/`countAll`/`insert` are list operations on the collection
contents, and a missing connection is modelled as `none` at the endpoints. -/
structure Store where
  banner : List Doc
  product : List Doc
deriving Repr

/-- Outcome of an endpoint: a 422 parameter-validation rejection raised by the
framework before the handler runs, an `HTTPException`-style status/detail, or
a success value. -/
inductive ApiError where
  | validation (msg : String)
  | http (code : Nat) (detail : String)
deriving Repr, DecidableEq

def isHexChar (c : Char) : Bool :=
  c.isDigit || ('a' ≤ c && c ≤ 'f') || ('A' ≤ c && c ≤ 'F')

/-- `ObjectId(s)` on a string succeeds exactly for 24 hexadecimal characters. -/
def isValidObjectId (s : String) : Bool :=
  s.length == 24 && s.data.all isHexChar

/-- Serialize a list of stored documents in order; a serializer exception
surfaces as an unhandled error (HTTP 500). -/
def serializeAll : List Doc → Except ApiError (List ProductOut)
  | [] => .ok []
  | d :: ds =>
    match serialize_product d with
    | .error e => .error (.http 500 e)
    | .ok o => (serializeAll ds).map fun os => o :: os

/-- `GET /api/products` (`src/main.py` lines 112–141).  The framework first
validates `limit` (`Query(24, ge=1, le=100)`; an omitted `limit` is `24`)
and rejects out-of-range values before the handler — hence before any store
access; the handler returns `[]` when no store connection exists, otherwise
serializes the matching documents capped at `limit`. -/
def list_products (db : Option Store) (p : ListParams) (limit : Option Int) :
    Except ApiError (List ProductOut) :=
  let l : Int := limit.getD 24
  if l < 1 ∨ 100 < l then .error (.validation "limit: ensure the value is in range [1, 100]")
  else
    match db with
    | none => .ok []
    | some s =>
      serializeAll (((s.product.filter fun d => docMatches d (buildProductFilter p)).take l.toNat))

/-- `findOne` on the product collection by `ObjectId`: the first document whose
`_id` equals the (lowercased) 24-hex identifier. -/
def findById (docs : List Doc) (pid : String) : Option Doc :=
  docs.find? fun d =>
    match dget d "_id" with
    | some v => BVal.beq v (BVal.oid pid.toLower)
    | none => false

/-- `GET /api/products/{product_id}` (`src/main.py` lines 143–153): 500 when no
store connection exists, 400 when `ObjectId(product_id)` raises, 404 when no
document is found (`if not doc:` — a falsy empty document also lands here),
otherwise the serialized document. -/
def get_product (db : Option Store) (pid : String) : Except ApiError ProductOut :=
  match db with
  | none => .error (.http 500 "Database not available")
  | some s =>
    if !isValidObjectId pid then .error (.http 400 "Invalid product id")
    else
      match findById s.product pid with
      | none => .error (.http 404 "Product not found")
      | some d =>
        if d.isEmpty then .error (.http 404 "Product not found")
        else
          match serialize_product d with
          | .ok o => .ok o
          | .error e => .error (.http 500 e)

/-! ### Seeding (`GET /api/seed`, `src/main.py` lines 160–248) -/

def seedBanners : List Doc :=
  [ [ ("title", BVal.str "Mega Sale"),
      ("subtitle", BVal.str "Up to 60% OFF on top styles"),
      ("image", BVal.str "https://images.unsplash.com/photo-1542291026-7eec264c27ff?w=1600&q=80&auto=format&fit=crop"),
      ("slug", BVal.str "mega-sale") ],
    [ ("title", BVal.str "New Collection 2025"),
      ("subtitle", BVal.str "Fresh arrivals for the new season"),
      ("image", BVal.str "https://images.unsplash.com/photo-1520975922203-b5d0b0d75136?w=1600&q=80&auto=format&fit=crop"),
      ("slug", BVal.str "new-collection-2025") ],
    [ ("title", BVal.str "Limited Stock Available"),
      ("subtitle", BVal.str "Grab your favorites before they’re gone"),
      ("image", BVal.str "https://images.unsplash.com/photo-1512436991641-6745cdb1723f?w=1600&q=80&auto=format&fit=crop"),
      ("slug", BVal.str "limited-stock") ] ]

def seedProducts : List Doc :=
  [ [ ("title", BVal.str "Classic Black Tee"),
      ("description", BVal.str "Premium cotton, perfect fit."),
      ("price", BVal.num 2499),
      ("category", BVal.str "Men"),
      ("images", BVal.list [BVal.str "https://images.unsplash.com/photo-1520975922203-b5d0b0d75136?w=1200&auto=format&fit=crop&q=80"]),
      ("sizes", BVal.list [BVal.str "S", BVal.str "M", BVal.str "L", BVal.str "XL"]),
      ("in_stock", BVal.bool true),
      ("is_trending", BVal.bool true),
      ("is_new", BVal.bool false),
      ("is_best_seller", BVal.bool true),
      ("season", BVal.str "Summer"),
      ("on_sale", BVal.bool true),
      ("sale_price", BVal.num 1999) ],
    [ ("title", BVal.str "Gold Accent Hoodie"),
      ("description", BVal.str "Cozy fleece with subtle gold detail."),
      ("price", BVal.num 4999),
      ("category", BVal.str "Women"),
      ("images", BVal.list [BVal.str "https://images.unsplash.com/photo-1519741497674-611481863552?w=1200&auto=format&fit=crop&q=80"]),
      ("sizes", BVal.list [BVal.str "S", BVal.str "M", BVal.str "L", BVal.str "XL"]),
      ("in_stock", BVal.bool true),
      ("is_trending", BVal.bool true),
      ("is_new", BVal.bool true),
      ("is_best_seller", BVal.bool false),
      ("season", BVal.str "Winter"),
      ("on_sale", BVal.bool false) ],
    [ ("title", BVal.str "Kids Summer Set"),
      ("description", BVal.str "Light and comfy two-piece."),
      ("price", BVal.num 2999),
      ("category", BVal.str "Kids"),
      ("images", BVal.list [BVal.str "https://images.unsplash.com/photo-1520975432204-8d8a9f9a9f3b?w=1200&auto=format&fit=crop&q=80"]),
      ("sizes", BVal.list [BVal.str "S", BVal.str "M", BVal.str "L"]),
      ("in_stock", BVal.bool true),
      ("is_trending", BVal.bool false),
      ("is_new", BVal.bool true),
      ("is_best_seller", BVal.bool false),
      ("season", BVal.str "Summer"),
      ("on_sale", BVal.bool false) ] ]

/-- Result of `GET /api/seed`: the updated store plus the reported
`{"products": …, "banners": …}` insert counts. -/
structure SeedResult where
  store : Store
  products : Nat
  banners : Nat
deriving Repr

/-- `seed_data` (`src/main.py` lines 160–248): per collection, when
`count_documents({}) == 0` insert the fixed sample records one by one,
counting each insert; otherwise leave the collection untouched and report 0. -/
def seed_data (db : Option Store) : Except ApiError SeedResult :=
  match db with
  | none => .error (.http 500 "Database not available")
  | some s =>
    .ok { store :=
            { banner := if s.banner.length = 0 then s.banner ++ seedBanners else s.banner,
              product := if s.product.length = 0 then s.product ++ seedProducts else s.product },
          products := if s.product.length = 0 then seedProducts.length else 0,
          banners := if s.banner.length = 0 then seedBanners.length else 0 }

/-! ### Input validation (`src/schemas.py`, pydantic `Product`)

The request body is a JSON object (a `Doc` whose values carry no `oid`).
Field checks follow pydantic: a required field must be present (absent and
JSON `null` both fail for non-optional fields); `str` fields accept only
strings; `float` fields accept numbers and numeric strings; `ge=0` is
enforced where declared; `HttpUrl` is modelled as an `http(s)://` URL with a
non-empty remainder. -/

def vReqStr : Option BVal → Except String String
  | none => .error "Field required"
  | some (.str s) => .ok s
  | some _ => .error "Input should be a valid string"

def vOptStr : Option BVal → Except String (Option String)
  | none => .ok none
  | some .null => .ok none
  | some (.str s) => .ok (some s)
  | some _ => .error "Input should be a valid string"

def vFloat : BVal → Except String Rat
  | .num q => .ok q
  | .str s =>
    match parsePyFloat s with
    | some q => .ok q
    | none => .error "Input should be a valid number"
  | _ => .error "Input should be a valid number"

def vReqFloatGe0 : Option BVal → Except String Rat
  | none => .error "Field required"
  | some v =>
    match vFloat v with
    | .error e => .error e
    | .ok q => if q < 0 then .error "Input should be greater than or equal to 0" else .ok q

def vOptFloatGe0 : Option BVal → Except String (Option Rat)
  | none => .ok none
  | some .null => .ok none
  | some v =>
    match vFloat v with
    | .error e => .error e
    | .ok q =>
      if q < 0 then .error "Input should be greater than or equal to 0" else .ok (some q)

def vBool (dflt : Bool) : Option BVal → Except String Bool
  | none => .ok dflt
  | some (.bool b) => .ok b
  | some _ => .error "Input should be a valid boolean"

/-- `HttpUrl`, modelled: an `http://` or `https://` scheme followed by a
non-empty host part.  (pydantic checks more of the URL grammar; every URL in
a theorem's domain is plainly well- or ill-formed under both.) -/
def isHttpUrl (s : String) : Bool :=
  (s.startsWith "http://" && s.length > 7) || (s.startsWith "https://" && s.length > 8)

def vStrElems : List BVal → Except String (List String)
  | [] => .ok []
  | .str s :: xs => (vStrElems xs).map fun r => s :: r
  | _ :: _ => .error "Input should be a valid string"

def vUrlElems : List BVal → Except String (List String)
  | [] => .ok []
  | .str s :: xs =>
    if isHttpUrl s then (vUrlElems xs).map fun r => s :: r
    else .error "Input should be a valid URL"
  | _ :: _ => .error "Input should be a valid URL"

def vUrlList : Option BVal → Except String (List String)
  | none => .ok []
  | some (.list xs) => vUrlElems xs
  | some _ => .error "Input should be a valid list"

def vSizes : Option BVal → Except String (List String)
  | none => .ok ["S", "M", "L", "XL"]
  | some (.list xs) => vStrElems xs
  | some _ => .error "Input should be a valid list"

/-- The validated pydantic `Product` model (`src/schemas.py` lines 10–27). -/
structure ProductIn where
  title : String
  description : Option String
  price : Rat
  category : String
  images : List String
  sizes : List String
  in_stock : Bool
  is_trending : Bool
  is_new : Bool
  is_best_seller : Bool
  season : Option String
  on_sale : Bool
  sale_price : Option Rat
deriving Repr, DecidableEq

/-- pydantic validation of a `Product` request body (`src/schemas.py`): each
field is checked against its declared type/constraint, defaults fill absent
optional fields, and any field failure rejects the whole record (pydantic
reports all offending fields; we surface the first). -/
def validate_product (d : Doc) : Except String ProductIn :=
  match vReqStr (dget d "title") with
  | .error e => .error ("title: " ++ e)
  | .ok titlev =>
  match vOptStr (dget d "description") with
  | .error e => .error ("description: " ++ e)
  | .ok descriptionv =>
  match vReqFloatGe0 (dget d "price") with
  | .error e => .error ("price: " ++ e)
  | .ok pricev =>
  match vReqStr (dget d "category") with
  | .error e => .error ("category: " ++ e)
  | .ok categoryv =>
  match vUrlList (dget d "images") with
  | .error e => .error ("images: " ++ e)
  | .ok imagesv =>
  match vSizes (dget d "sizes") with
  | .error e => .error ("sizes: " ++ e)
  | .ok sizesv =>
  match vBool true (dget d "in_stock") with
  | .error e => .error ("in_stock: " ++ e)
  | .ok in_stockv =>
  match vBool false (dget d "is_trending") with
  | .error e => .error ("is_trending: " ++ e)
  | .ok is_trendingv =>
  match vBool false (dget d "is_new") with
  | .error e => .error ("is_new: " ++ e)
  | .ok is_newv =>
  match vBool false (dget d "is_best_seller") with
  | .error e => .error ("is_best_seller: " ++ e)
  | .ok is_best_sellerv =>
  match vOptStr (dget d "season") with
  | .error e => .error ("season: " ++ e)
  | .ok seasonv =>
  match vBool false (dget d "on_sale") with
  | .error e => .error ("on_sale: " ++ e)
  | .ok on_salev =>
  match vOptFloatGe0 (dget d "sale_price") with
  | .error e => .error ("sale_price: " ++ e)
  | .ok sale_pricev =>
    .ok { title := titlev, description := descriptionv, price := pricev,
          category := categoryv, images := imagesv, sizes := sizesv,
          in_stock := in_stockv, is_trending := is_trendingv, is_new := is_newv,
          is_best_seller := is_best_sellerv, season := seasonv,
          on_sale := on_salev, sale_price := sale_pricev }

/-- The validated model dumped back to a stored document (`payload.dict()`). -/
def productToDoc (p : ProductIn) : Doc :=
  [ ("title", BVal.str p.title),
    ("description", match p.description with | some s => BVal.str s | none => BVal.null),
    ("price", BVal.num p.price),
    ("category", BVal.str p.category),
    ("images", BVal.list (p.images.map BVal.str)),
    ("sizes", BVal.list (p.sizes.map BVal.str)),
    ("in_stock", BVal.bool p.in_stock),
    ("is_trending", BVal.bool p.is_trending),
    ("is_new", BVal.bool p.is_new),
    ("is_best_seller", BVal.bool p.is_best_seller),
    ("season", match p.season with | some s => BVal.str s | none => BVal.null),
    ("on_sale", BVal.bool p.on_sale),
    ("sale_price", match p.sale_price with | some q => BVal.num q | none => BVal.null) ]

/-- Modelled from the spec: `create_document` lives in `database.py`, which is
not under `src/`.  Per §4.2 the adapter persists the validated record into the
named collection and returns a newly assigned unique identifier (generation is
abstracted as the collection length rendered into the id string). -/
def create_document (s : Store) (coll : String) (d : Doc) : Store × String :=
  if coll = "product" then
    let nid := "productid" ++ toString s.product.length
    ({ s with product := s.product ++ [d ++ [("_id", BVal.oid nid)]] }, nid)
  else
    let nid := "bannerid" ++ toString s.banner.length
    ({ s with banner := s.banner ++ [d ++ [("_id", BVal.oid nid)]] }, nid)

/-- `POST /api/products` (`src/main.py` lines 155–158): the framework
validates the body against the `Product` schema (422 on failure), then the
handler inserts the validated record; per §4.2 the insert fails with a server
error when no store connection exists. -/
def create_product (db : Option Store) (body : Doc) : Except ApiError (Store × String) :=
  match validate_product body with
  | .error e => .error (.validation e)
  | .ok p =>
    match db with
    | none => .error (.http 500 "StorageUnavailable")
    | some s => .ok (create_document s "product" (productToDoc p))

/-! ### Well-formedness of stored documents

`WFProductDoc` describes the stored shapes over which the serializer's
totality is claimed: the two fields `serialize_product` feeds into required
output slots (`title`, `category`) are present as strings, and every other
field, when present, carries its stored type (optional text may also be
null; `price` a number; `images`/`sizes` lists).  Fields read through
`bool(...)` are unconstrained — that coercion is total. -/

def isStrB : Option BVal → Bool
  | some (.str _) => true
  | _ => false

def isOptStrB : Option BVal → Bool
  | none => true
  | some .null => true
  | some (.str _) => true
  | _ => false

def isOptNumB : Option BVal → Bool
  | none => true
  | some (.num _) => true
  | _ => false

def isOptNullNumB : Option BVal → Bool
  | none => true
  | some .null => true
  | some (.num _) => true
  | _ => false

def isOptListB : Option BVal → Bool
  | none => true
  | some (.list _) => true
  | _ => false

def WFProductDoc (d : Doc) : Bool :=
  isStrB (dget d "title") && isStrB (dget d "category") &&
  isOptStrB (dget d "description") && isOptNumB (dget d "price") &&
  isOptListB (dget d "images") && isOptListB (dget d "sizes") &&
  isOptStrB (dget d "season") && isOptNullNumB (dget d "sale_price")

def WFBannerDoc (d : Doc) : Bool :=
  isStrB (dget d "title") && isStrB (dget d "slug") &&
  isOptStrB (dget d "subtitle") && isOptStrB (dget d "image")

/-! ### Statement-side predicates for the filter semantics -/

/-- The constraint a set string parameter imposes on a matching document
(an empty-string value imposes nothing — it is dropped by truthiness). -/
def strParamHolds (d : Doc) (field : String) : Option String → Prop
  | some s => s ≠ "" → dget d field = some (BVal.str s)
  | none => True

/-- The constraint a set tri-state boolean parameter imposes. -/
def boolParamHolds (d : Doc) (field : String) : Option Bool → Prop
  | some b => dget d field = some (BVal.bool b)
  | none => True

/-- The constraint a set non-empty `q` imposes: the title is a string matched
by `q` as a case-insensitive unanchored pattern. -/
def qParamHolds (d : Doc) : Option String → Prop
  | some s => s ≠ "" → ∃ t, dget d "title" = some (BVal.str t) ∧ regexMatchCI s t = true
  | none => True

/-- Number of filter conditions carried by a given stored field name. -/
def countKey (f : MFilter) (k : String) : Nat :=
  (f.filter fun fc => fc.1 = k).length

/-- Python truthiness of an optional string parameter (`if category:`). -/
def strTruthy : Option String → Bool
  | some s => !(s == "")
  | none => false

/-! ## Helper lemmas -/

theorem isStrB_spec {o : Option BVal} (h : isStrB o = true) :
    ∃ s, o = some (BVal.str s) := by
  rcases o with _ | v
  · simp [isStrB] at h
  · rcases v with s | q | b | _ | s | xs <;> simp [isStrB] at h
    exact ⟨s, rfl⟩

theorem isOptStrB_spec {o : Option BVal} (h : isOptStrB o = true) :
    o = none ∨ o = some BVal.null ∨ ∃ s, o = some (BVal.str s) := by
  rcases o with _ | v
  · exact Or.inl rfl
  · rcases v with s | q | b | _ | s | xs <;> simp [isOptStrB] at h
    · exact Or.inr (Or.inr ⟨s, rfl⟩)
    · exact Or.inr (Or.inl rfl)

theorem isOptNumB_spec {o : Option BVal} (h : isOptNumB o = true) :
    o = none ∨ ∃ q, o = some (BVal.num q) := by
  rcases o with _ | v
  · exact Or.inl rfl
  · rcases v with s | q | b | _ | s | xs <;> simp [isOptNumB] at h
    exact Or.inr ⟨q, rfl⟩

theorem isOptNullNumB_spec {o : Option BVal} (h : isOptNullNumB o = true) :
    o = none ∨ o = some BVal.null ∨ ∃ q, o = some (BVal.num q) := by
  rcases o with _ | v
  · exact Or.inl rfl
  · rcases v with s | q | b | _ | s | xs <;> simp [isOptNullNumB] at h
    · exact Or.inr (Or.inr ⟨q, rfl⟩)
    · exact Or.inr (Or.inl rfl)

theorem isOptListB_spec {o : Option BVal} (h : isOptListB o = true) :
    o = none ∨ ∃ xs, o = some (BVal.list xs) := by
  rcases o with _ | v
  · exact Or.inl rfl
  · rcases v with s | q | b | _ | s | xs <;> simp [isOptListB] at h
    exact Or.inr ⟨xs, rfl⟩

theorem serialize_product_fields {d : Doc} {out : ProductOut}
    (h : serialize_product d = Except.ok out) :
    reqStr "title" (pyGet d "title") = .ok out.title ∧
    optStr "description" (pyGet d "description") = .ok out.description ∧
    pyFloat (pyGetD d "price" (BVal.num 0)) = .ok out.price ∧
    reqStr "category" (pyGet d "category") = .ok out.category ∧
    pyStrList (pyGetD d "images" (BVal.list [])) = .ok out.images ∧
    pyStrList (pyGetD d "sizes" (BVal.list [])) = .ok out.sizes ∧
    optStr "season" (pyGet d "season") = .ok out.season ∧
    optSalePrice (pyGet d "sale_price") = .ok out.sale_price ∧
    out.id = pyStr (pyGet d "_id") ∧
    out.in_stock = pyBool (pyGetD d "in_stock" (BVal.bool true)) ∧
    out.is_trending = pyBool (pyGetD d "is_trending" (BVal.bool false)) ∧
    out.is_new = pyBool (pyGetD d "is_new" (BVal.bool false)) ∧
    out.is_best_seller = pyBool (pyGetD d "is_best_seller" (BVal.bool false)) ∧
    out.on_sale = pyBool (pyGetD d "on_sale" (BVal.bool false)) := by
  unfold serialize_product at h
  split at h <;> cases h
  and_intros <;> first | assumption | rfl

theorem serialize_banner_fields {d : Doc} {out : BannerOut}
    (h : serialize_banner d = Except.ok out) :
    reqStr "title" (pyGet d "title") = .ok out.title ∧
    optStr "subtitle" (pyGet d "subtitle") = .ok out.subtitle ∧
    optStr "image" (pyGet d "image") = .ok out.image ∧
    reqStr "slug" (pyGet d "slug") = .ok out.slug ∧
    out.id = pyStr (pyGet d "_id") := by
  unfold serialize_banner at h
  split at h <;> cases h
  and_intros <;> first | assumption | rfl

theorem reqStr_dget_ok {d : Doc} {k : String} (f : String)
    (h : isStrB (dget d k) = true) : ∃ s, reqStr f (pyGet d k) = .ok s := by
  obtain ⟨s, hs⟩ := isStrB_spec h
  exact ⟨s, by simp [pyGet, hs, reqStr]⟩

theorem optStr_dget_ok {d : Doc} {k : String} (f : String)
    (h : isOptStrB (dget d k) = true) : ∃ v, optStr f (pyGet d k) = .ok v := by
  rcases isOptStrB_spec h with h1 | h1 | ⟨s, h1⟩
  · exact ⟨none, by simp [pyGet, h1, optStr]⟩
  · exact ⟨none, by simp [pyGet, h1, optStr]⟩
  · exact ⟨some s, by simp [pyGet, h1, optStr]⟩

theorem pyFloat_dget_ok {d : Doc} {k : String}
    (h : isOptNumB (dget d k) = true) :
    ∃ q, pyFloat (pyGetD d k (BVal.num 0)) = .ok q := by
  rcases isOptNumB_spec h with h1 | ⟨q, h1⟩
  · exact ⟨0, by simp [pyGetD, h1, pyFloat]⟩
  · exact ⟨q, by simp [pyGetD, h1, pyFloat]⟩

theorem pyStrList_dget_ok {d : Doc} {k : String}
    (h : isOptListB (dget d k) = true) :
    ∃ l, pyStrList (pyGetD d k (BVal.list [])) = .ok l := by
  rcases isOptListB_spec h with h1 | ⟨xs, h1⟩
  · exact ⟨[], by simp [pyGetD, h1, pyStrList]⟩
  · exact ⟨xs.map pyStr, by simp [pyGetD, h1, pyStrList]⟩

theorem optSalePrice_dget_ok {d : Doc} {k : String}
    (h : isOptNullNumB (dget d k) = true) :
    ∃ v, optSalePrice (pyGet d k) = .ok v := by
  rcases isOptNullNumB_spec h with h1 | h1 | ⟨q, h1⟩
  · exact ⟨none, by simp [pyGet, h1, optSalePrice]⟩
  · exact ⟨none, by simp [pyGet, h1, optSalePrice]⟩
  · exact ⟨some q, by simp [pyGet, h1, optSalePrice, pyFloat, Except.map]⟩

theorem serialize_product_total {d : Doc} (hw : WFProductDoc d = true) :
    ∃ out, serialize_product d = Except.ok out := by
  unfold WFProductDoc at hw
  simp only [Bool.and_eq_true] at hw
  obtain ⟨⟨⟨⟨⟨⟨⟨h1, h2⟩, h3⟩, h4⟩, h5⟩, h6⟩, h7⟩, h8⟩ := hw
  obtain ⟨titlev, hT⟩ := reqStr_dget_ok "title" h1
  obtain ⟨categoryv, hC⟩ := reqStr_dget_ok "category" h2
  obtain ⟨descriptionv, hD⟩ := optStr_dget_ok "description" h3
  obtain ⟨pricev, hP⟩ := pyFloat_dget_ok h4
  obtain ⟨imagesv, hI⟩ := pyStrList_dget_ok h5
  obtain ⟨sizesv, hS⟩ := pyStrList_dget_ok h6
  obtain ⟨seasonv, hSe⟩ := optStr_dget_ok "season" h7
  obtain ⟨salev, hSp⟩ := optSalePrice_dget_ok h8
  refine ⟨{ id := pyStr (pyGet d "_id"), title := titlev, description := descriptionv,
            price := pricev, category := categoryv, images := imagesv, sizes := sizesv,
            in_stock := pyBool (pyGetD d "in_stock" (BVal.bool true)),
            is_trending := pyBool (pyGetD d "is_trending" (BVal.bool false)),
            is_new := pyBool (pyGetD d "is_new" (BVal.bool false)),
            is_best_seller := pyBool (pyGetD d "is_best_seller" (BVal.bool false)),
            season := seasonv, on_sale := pyBool (pyGetD d "on_sale" (BVal.bool false)),
            sale_price := salev }, ?_⟩
  unfold serialize_product
  rw [hT, hD, hP, hC, hI, hS, hSe, hSp]

theorem serialize_banner_total {d : Doc} (hw : WFBannerDoc d = true) :
    ∃ out, serialize_banner d = Except.ok out := by
  unfold WFBannerDoc at hw
  simp only [Bool.and_eq_true] at hw
  obtain ⟨⟨⟨h1, h2⟩, h3⟩, h4⟩ := hw
  obtain ⟨titlev, hT⟩ := reqStr_dget_ok "title" h1
  obtain ⟨slugv, hSl⟩ := reqStr_dget_ok "slug" h2
  obtain ⟨subtitlev, hSu⟩ := optStr_dget_ok "subtitle" h3
  obtain ⟨imagev, hI⟩ := optStr_dget_ok "image" h4
  refine ⟨{ id := pyStr (pyGet d "_id"), title := titlev, subtitle := subtitlev,
            image := imagev, slug := slugv }, ?_⟩
  unfold serialize_banner
  rw [hT, hSu, hI, hSl]

theorem beq_str_iff {v : BVal} {s : String} :
    BVal.beq v (BVal.str s) = true ↔ v = BVal.str s := by
  cases v <;> simp [BVal.beq]

theorem beq_bool_iff {v : BVal} {b : Bool} :
    BVal.beq v (BVal.bool b) = true ↔ v = BVal.bool b := by
  cases v <;> simp [BVal.beq]

theorem condHolds_eqStr_iff {d : Doc} {f s : String} :
    condHolds d f (FCond.eqStr s) = true ↔ dget d f = some (BVal.str s) := by
  unfold condHolds
  cases h : dget d f with
  | none => simp
  | some v => simp [beq_str_iff]

theorem condHolds_eqBool_iff {d : Doc} {f : String} {b : Bool} :
    condHolds d f (FCond.eqBool b) = true ↔ dget d f = some (BVal.bool b) := by
  unfold condHolds
  cases h : dget d f with
  | none => simp
  | some v => simp [beq_bool_iff]

theorem condHolds_regex_iff {d : Doc} {f pat : String} :
    condHolds d f (FCond.regexCI pat) = true ↔
      ∃ t, dget d f = some (BVal.str t) ∧ regexMatchCI pat t = true := by
  unfold condHolds
  cases h : dget d f with
  | none => simp
  | some v => cases v <;> simp

theorem docMatches_append {d : Doc} {a b : MFilter} :
    docMatches d (a ++ b) = (docMatches d a && docMatches d b) := by
  simp [docMatches, List.all_append]

theorem docMatches_strCond_eqStr {d : Doc} {f : String} {v : Option String} :
    docMatches d (strCond f v FCond.eqStr) = true ↔ strParamHolds d f v := by
  cases v with
  | none => simp [strCond, docMatches, strParamHolds]
  | some s =>
    by_cases hs : s = ""
    · subst hs; simp [strCond, docMatches, strParamHolds]
    · simp [strCond, hs, docMatches, strParamHolds, condHolds_eqStr_iff]

theorem docMatches_boolCond {d : Doc} {f : String} {v : Option Bool} :
    docMatches d (boolCond f v) = true ↔ boolParamHolds d f v := by
  cases v with
  | none => simp [boolCond, docMatches, boolParamHolds]
  | some b => simp [boolCond, docMatches, boolParamHolds, condHolds_eqBool_iff]

theorem docMatches_qCond {d : Doc} {v : Option String} :
    docMatches d (strCond "title" v FCond.regexCI) = true ↔ qParamHolds d v := by
  cases v with
  | none => simp [strCond, docMatches, qParamHolds]
  | some s =>
    by_cases hs : s = ""
    · subst hs; simp [strCond, docMatches, qParamHolds]
    · simp [strCond, hs, docMatches, qParamHolds, condHolds_regex_iff]

theorem countKey_append {a b : MFilter} {k : String} :
    countKey (a ++ b) k = countKey a k + countKey b k := by
  simp [countKey, List.filter_append]

theorem countKey_strCond {f k : String} {v : Option String} {mk : String → FCond} :
    countKey (strCond f v mk) k =
      if f = k then (if strTruthy v then 1 else 0) else 0 := by
  cases v with
  | none => simp [strCond, strTruthy, countKey]
  | some s =>
    by_cases hs : s = ""
    · subst hs; simp [strCond, strTruthy, countKey]
    · by_cases hk : f = k <;> simp [strCond, hs, strTruthy, countKey, hk]

theorem countKey_boolCond {f k : String} {v : Option Bool} :
    countKey (boolCond f v) k = if f = k then (if v.isSome then 1 else 0) else 0 := by
  cases v with
  | none => simp [boolCond, countKey]
  | some b => by_cases hk : f = k <;> simp [boolCond, countKey, hk]

theorem serializeAll_length : ∀ {ds : List Doc} {os : List ProductOut},
    serializeAll ds = Except.ok os → os.length = ds.length := by
  intro ds
  induction ds with
  | nil => intro os h; cases h; rfl
  | cons d r ih =>
    intro os h
    unfold serializeAll at h
    cases hs : serialize_product d with
    | error e => rw [hs] at h; cases h
    | ok o =>
      rw [hs] at h
      cases hr : serializeAll r with
      | error e => rw [hr] at h; cases h
      | ok ros =>
        rw [hr] at h
        cases h
        simp [ih hr]

theorem matchHere_lit : ∀ (l s : List Char),
    matchHere (l.map PTok.lit) s = startsWithCI l s := by
  intro l
  induction l with
  | nil => intro s; rfl
  | cons c cs ih =>
    intro s
    cases s with
    | nil => rfl
    | cons a as => simp [matchHere, startsWithCI, tokMatch, ih]

theorem matchAnywhere_lit : ∀ (s l : List Char),
    matchAnywhere (l.map PTok.lit) s = containsCI l s := by
  intro s
  induction s with
  | nil => intro l; simp [matchAnywhere, containsCI, matchHere_lit]
  | cons a as ih => intro l; simp [matchAnywhere, containsCI, matchHere_lit, ih]

theorem parsePat_noMeta {q : String}
    (h : q.data.all (fun c => !(isRegexMetaChar c)) = true) :
    parsePat q = q.data.map PTok.lit := by
  unfold parsePat
  apply List.map_congr_left
  intro c hc
  have hm := List.all_eq_true.mp h c hc
  have hdot : c ≠ '.' := by
    intro he
    subst he
    simp [isRegexMetaChar] at hm
  simp [hdot]

/-! ## Claims -/

/-- C1 (counterexample): as stated, totality over records "missing any subset
of fields" fails — on the empty record both serializers raise, because the
required output fields `title`/`category` (product) and `title`/`slug`
(banner) receive `None` and fail validation. -/
theorem C1_counterexample :
    (serialize_product []).isOk = false ∧ (serialize_banner []).isOk = false :=
  ⟨rfl, rfl⟩

/-- C1 (amended): `serialize_product`/`serialize_banner` are total over every
stored record in which the fields feeding required output slots (`title` and
`category` for products, `title` and `slug` for banners) are present as text
and every other present field carries its stored type; each absent field is
defaulted (`price` to 0, `images`/`sizes` to `[]`, `in_stock` to true, the
other flags to false, `description`/`season`/`sale_price`/`subtitle`/`image`
to null) — in particular a product record missing `sale_price` serializes
with `sale_price = null` without raising. -/
theorem C1_toOutput_total :
    (∀ d : Doc, WFProductDoc d = true →
      ∃ out, serialize_product d = Except.ok out ∧
        (dget d "description" = none → out.description = none) ∧
        (dget d "price" = none → out.price = 0) ∧
        (dget d "images" = none → out.images = []) ∧
        (dget d "sizes" = none → out.sizes = []) ∧
        (dget d "in_stock" = none → out.in_stock = true) ∧
        (dget d "is_trending" = none → out.is_trending = false) ∧
        (dget d "is_new" = none → out.is_new = false) ∧
        (dget d "is_best_seller" = none → out.is_best_seller = false) ∧
        (dget d "season" = none → out.season = none) ∧
        (dget d "on_sale" = none → out.on_sale = false) ∧
        (dget d "sale_price" = none → out.sale_price = none)) ∧
    (∀ d : Doc, WFBannerDoc d = true →
      ∃ out, serialize_banner d = Except.ok out ∧
        (dget d "subtitle" = none → out.subtitle = none) ∧
        (dget d "image" = none → out.image = none)) := by
  constructor
  · intro d hw
    obtain ⟨out, hok⟩ := serialize_product_total hw
    obtain ⟨hT, hD, hP, hC, hI, hS, hSe, hSp, hid, hins, htr, hnew, hbest, hsal⟩ :=
      serialize_product_fields hok
    refine ⟨out, hok, ?_, ?_, ?_, ?_, ?_, ?_, ?_, ?_, ?_, ?_, ?_⟩
    · intro ha; simp [pyGet, ha, optStr] at hD; exact hD.symm
    · intro ha; simp [pyGetD, ha, pyFloat] at hP; exact hP.symm
    · intro ha; simp [pyGetD, ha, pyStrList] at hI; exact hI
    · intro ha; simp [pyGetD, ha, pyStrList] at hS; exact hS
    · intro ha; simp [pyGetD, ha, pyBool] at hins; exact hins
    · intro ha; simp [pyGetD, ha, pyBool] at htr; exact htr
    · intro ha; simp [pyGetD, ha, pyBool] at hnew; exact hnew
    · intro ha; simp [pyGetD, ha, pyBool] at hbest; exact hbest
    · intro ha; simp [pyGet, ha, optStr] at hSe; exact hSe.symm
    · intro ha; simp [pyGetD, ha, pyBool] at hsal; exact hsal
    · intro ha; simp [pyGet, ha, optSalePrice] at hSp; exact hSp.symm
  · intro d hw
    obtain ⟨out, hok⟩ := serialize_banner_total hw
    obtain ⟨hT, hSu, hI, hSl, hid⟩ := serialize_banner_fields hok
    refine ⟨out, hok, ?_, ?_⟩
    · intro ha; simp [pyGet, ha, optStr] at hSu; exact hSu.symm
    · intro ha; simp [pyGet, ha, optStr] at hI; exact hI.symm

/-- C1 (witness): a stored product record carrying only `title` and
`category` — in particular missing `sale_price`, with `on_sale` defaulting
to false — serializes without raising, with `sale_price = null`. -/
theorem C1_toOutput_total_witness :
    ∃ out, serialize_product [("title", BVal.str "Tee"), ("category", BVal.str "Men")] =
        Except.ok out ∧ out.sale_price = none ∧ out.on_sale = false := by
  obtain ⟨out, hok, _, _, _, _, _, _, _, _, _, hsal, hsp⟩ :=
    C1_toOutput_total.1 [("title", BVal.str "Tee"), ("category", BVal.str "Men")] (by decide)
  exact ⟨out, hok, hsp rfl, hsal rfl⟩

/-- C9: a stored product document with no `price` field serializes
successfully-defaulted: `price` comes out as 0 (the code reads
`float(doc.get("price", 0))`). -/
theorem C9_price_defaults_to_zero (d : Doc) (out : ProductOut)
    (h : serialize_product d = Except.ok out) (ha : dget d "price" = none) :
    out.price = 0 := by
  obtain ⟨-, -, hP, -⟩ := serialize_product_fields h
  simp [pyGetD, ha, pyFloat] at hP
  exact hP.symm

/-- C9 (witness). -/
theorem C9_price_defaults_to_zero_witness :
    ∃ out, serialize_product [("title", BVal.str "Tee"), ("category", BVal.str "Men")] =
        Except.ok out ∧ out.price = 0 := by
  obtain ⟨out, hok⟩ :
      ∃ out, serialize_product [("title", BVal.str "Tee"), ("category", BVal.str "Men")] =
        Except.ok out := ⟨_, rfl⟩
  exact ⟨out, hok, C9_price_defaults_to_zero _ out hok rfl⟩

/-- C10: a stored product document with no `sizes` field serializes with
`sizes = []` — not the creation-time default `["S","M","L","XL"]` — and one
with no `images` field serializes with `images = []`. -/
theorem C10_sizes_images_default_empty (d : Doc) (out : ProductOut)
    (h : serialize_product d = Except.ok out) :
    (dget d "sizes" = none → out.sizes = [] ∧ out.sizes ≠ ["S", "M", "L", "XL"]) ∧
    (dget d "images" = none → out.images = []) := by
  obtain ⟨-, -, -, -, hI, hS, -⟩ := serialize_product_fields h
  constructor
  · intro ha
    simp [pyGetD, ha, pyStrList] at hS
    constructor
    · exact hS
    · rw [hS]; simp
  · intro ha
    simp [pyGetD, ha, pyStrList] at hI
    exact hI

/-- C10 (witness). -/
theorem C10_sizes_images_default_empty_witness :
    ∃ out, serialize_product [("title", BVal.str "Tee"), ("category", BVal.str "Men")] =
        Except.ok out ∧ out.sizes = [] ∧ out.images = [] := by
  obtain ⟨out, hok⟩ :
      ∃ out, serialize_product [("title", BVal.str "Tee"), ("category", BVal.str "Men")] =
        Except.ok out := ⟨_, rfl⟩
  obtain ⟨hs, hi⟩ := C10_sizes_images_default_empty _ out hok
  exact ⟨out, hok, (hs rfl).1, hi rfl⟩

/-- C8: the filter built with `category` (resp. `season`, `q`) equal to the
empty string is the filter built with that parameter unset — Python
truthiness drops empty strings — and no empty-string equality or
empty-pattern condition is ever produced. -/
theorem C8_empty_string_like_unset (p : ListParams) :
    buildProductFilter { p with category := some "" } =
      buildProductFilter { p with category := none } ∧
    buildProductFilter { p with season := some "" } =
      buildProductFilter { p with season := none } ∧
    buildProductFilter { p with q := some "" } =
      buildProductFilter { p with q := none } ∧
    (∀ f c, (f, c) ∈ buildProductFilter p →
      c ≠ FCond.eqStr "" ∧ c ≠ FCond.regexCI "") := by
  refine ⟨by simp [buildProductFilter, strCond], by simp [buildProductFilter, strCond],
    by simp [buildProductFilter, strCond], ?_⟩
  intro f c hm
  rw [buildProductFilter] at hm
  have hstr : ∀ (fl : String) (v : Option String) (mk : String → FCond),
      (∀ s, s ≠ "" → mk s ≠ FCond.eqStr "" ∧ mk s ≠ FCond.regexCI "") →
      (f, c) ∈ strCond fl v mk → c ≠ FCond.eqStr "" ∧ c ≠ FCond.regexCI "" := by
    intro fl v mk hmk hmem
    cases v with
    | none => simp [strCond] at hmem
    | some s =>
      by_cases hs : s = ""
      · subst hs; simp [strCond] at hmem
      · simp [strCond, hs] at hmem
        rcases hmem with ⟨-, rfl⟩
        exact hmk s hs
  have hbool : ∀ (fl : String) (v : Option Bool),
      (f, c) ∈ boolCond fl v → c ≠ FCond.eqStr "" ∧ c ≠ FCond.regexCI "" := by
    intro fl v hmem
    cases v with
    | none => simp [boolCond] at hmem
    | some b =>
      simp [boolCond] at hmem
      rcases hmem with ⟨-, rfl⟩
      exact ⟨by simp, by simp⟩
  rcases List.mem_append.mp hm with hm1 | hq
  · rcases List.mem_append.mp hm1 with hm2 | hsa
    · rcases List.mem_append.mp hm2 with hm3 | hbe
      · rcases List.mem_append.mp hm3 with hm4 | hnw
        · rcases List.mem_append.mp hm4 with hm5 | htr
          · rcases List.mem_append.mp hm5 with hca | hse
            · exact hstr _ _ _ (fun s hs => ⟨by simp [hs], by simp⟩) hca
            · exact hstr _ _ _ (fun s hs => ⟨by simp [hs], by simp⟩) hse
          · exact hbool _ _ htr
        · exact hbool _ _ hnw
      · exact hbool _ _ hbe
    · exact hbool _ _ hsa
  · exact hstr _ _ _ (fun s hs => ⟨by simp, by simp [hs]⟩) hq

/-- C8 (witness): at `category = "Men"` the sole produced condition is a
non-empty equality. -/
theorem C8_empty_string_like_unset_witness :
    FCond.eqStr "Men" ≠ FCond.eqStr "" ∧ FCond.eqStr "Men" ≠ FCond.regexCI "" :=
  (C8_empty_string_like_unset { category := some "Men" }).2.2.2 "category"
    (FCond.eqStr "Men") (by simp [buildProductFilter, strCond])

/-- C2 (counterexample): a set (non-null) `category` holding the empty string
contributes no condition at all — the built filter is empty — so "exactly one
condition per parameter that is set" fails as stated. -/
theorem C2_counterexample :
    ({ category := some "" } : ListParams).category.isSome = true ∧
    buildProductFilter { category := some "" } = [] :=
  ⟨rfl, rfl⟩

/-- C2 (amended): the filter contains exactly one condition, on the
corresponding stored field name, for each parameter that is set and — for
the string parameters `category`/`season`/`q` — non-empty (Python truthiness
drops empty strings); the conditions are conjoined with logical AND
(a document matches the filter exactly when it satisfies every set
parameter's condition); booleans are tri-state, `false` contributing an
equality-with-false condition; with no parameter set the filter is empty. -/
theorem C2_filter_conditions (p : ListParams) (d : Doc) :
    countKey (buildProductFilter p) "category" = (if strTruthy p.category then 1 else 0) ∧
    countKey (buildProductFilter p) "season" = (if strTruthy p.season then 1 else 0) ∧
    countKey (buildProductFilter p) "is_trending" = (if p.trending.isSome then 1 else 0) ∧
    countKey (buildProductFilter p) "is_new" = (if p.new.isSome then 1 else 0) ∧
    countKey (buildProductFilter p) "is_best_seller" = (if p.best.isSome then 1 else 0) ∧
    countKey (buildProductFilter p) "on_sale" = (if p.sale.isSome then 1 else 0) ∧
    countKey (buildProductFilter p) "title" = (if strTruthy p.q then 1 else 0) ∧
    buildProductFilter {} = [] ∧
    (docMatches d (buildProductFilter p) = true ↔
      strParamHolds d "category" p.category ∧ strParamHolds d "season" p.season ∧
      boolParamHolds d "is_trending" p.trending ∧ boolParamHolds d "is_new" p.new ∧
      boolParamHolds d "is_best_seller" p.best ∧ boolParamHolds d "on_sale" p.sale ∧
      qParamHolds d p.q) := by
  refine ⟨?_, ?_, ?_, ?_, ?_, ?_, ?_, rfl, ?_⟩
  · rw [buildProductFilter]; simp [countKey_append, countKey_strCond, countKey_boolCond]
  · rw [buildProductFilter]; simp [countKey_append, countKey_strCond, countKey_boolCond]
  · rw [buildProductFilter]; simp [countKey_append, countKey_strCond, countKey_boolCond]
  · rw [buildProductFilter]; simp [countKey_append, countKey_strCond, countKey_boolCond]
  · rw [buildProductFilter]; simp [countKey_append, countKey_strCond, countKey_boolCond]
  · rw [buildProductFilter]; simp [countKey_append, countKey_strCond, countKey_boolCond]
  · rw [buildProductFilter]; simp [countKey_append, countKey_strCond, countKey_boolCond]
  · rw [buildProductFilter]
    simp only [docMatches_append, Bool.and_eq_true]
    rw [docMatches_strCond_eqStr, docMatches_strCond_eqStr, docMatches_boolCond,
      docMatches_boolCond, docMatches_boolCond, docMatches_boolCond, docMatches_qCond]
    tauto

/-- C2 (witness): with `category = "Men"` and `sale = false` set, the filter
carries one condition on each of `category` and `on_sale` and none on
`title`, and a matching document must carry `category = "Men"` and
`on_sale = false`. -/
theorem C2_filter_conditions_witness :
    countKey (buildProductFilter { category := some "Men", sale := some false }) "category" = 1 ∧
    countKey (buildProductFilter { category := some "Men", sale := some false }) "on_sale" = 1 ∧
    countKey (buildProductFilter { category := some "Men", sale := some false }) "title" = 0 ∧
    dget [("category", BVal.str "Men"), ("on_sale", BVal.bool false)] "category" =
      some (BVal.str "Men") := by
  obtain ⟨h1, -, -, -, -, h6, h7, -, hiff⟩ :=
    C2_filter_conditions { category := some "Men", sale := some false }
      [("category", BVal.str "Men"), ("on_sale", BVal.bool false)]
  exact ⟨h1, h6, h7, ((hiff.mp (by decide)).1 (by decide))⟩

/-- C3 (counterexample): `q` is handed to the store as a regular-expression
pattern, not escaped — the pattern `"a.c"` matches the title `"abc"` even
though `"a.c"` is not a substring of `"abc"` — so "pure substring matching
for all inputs q" fails. -/
theorem C3_counterexample :
    docMatches [("title", BVal.str "abc")] (buildProductFilter { q := some "a.c" }) = true ∧
    containsCIStr "a.c" "abc" = false :=
  ⟨rfl, rfl⟩

/-- C3 (amended): a non-empty `q` adds a case-insensitive unanchored
regular-expression condition on `title`; for every `q` containing no
regular-expression metacharacter this coincides with case-insensitive
substring matching: a titled record matches the `q`-filter iff `q` occurs
case-insensitively in its title. -/
theorem C3_q_substring_semantics (q t : String) (d : Doc) (hq : q ≠ "")
    (hmeta : q.data.all (fun c => !(isRegexMetaChar c)) = true)
    (ht : dget d "title" = some (BVal.str t)) :
    docMatches d (buildProductFilter { q := some q }) = true ↔ containsCIStr q t = true := by
  have hfilt : buildProductFilter { q := some q } = [("title", FCond.regexCI q)] := by
    simp [buildProductFilter, strCond, boolCond, hq]
  rw [hfilt]
  have hmatch : regexMatchCI q t = containsCIStr q t := by
    unfold regexMatchCI containsCIStr
    rw [parsePat_noMeta hmeta, matchAnywhere_lit]
  simp [docMatches, condHolds, ht, hmatch]

/-- C3 (witness): the metacharacter-free query `"tee"` matches the title
`"Classic Black Tee"` case-insensitively. -/
theorem C3_q_substring_semantics_witness :
    docMatches [("title", BVal.str "Classic Black Tee")]
      (buildProductFilter { q := some "tee" }) = true :=
  (C3_q_substring_semantics "tee" "Classic Black Tee"
    [("title", BVal.str "Classic Black Tee")] (by decide) (by decide) rfl).mpr (by decide)

/-- C4: `GET /api/products/{id}` — with no store connection the endpoint
fails 500; with a store, a malformed identifier (not 24 hex characters, so
`ObjectId(...)` raises) fails 400; a well-formed identifier held by no
document fails 404; the three error outcomes are pairwise distinct.
(The source checks the connection first, so an unavailable store wins over a
malformed identifier.) -/
theorem C4_get_product_errors (db : Option Store) (pid : String) :
    (db = none → get_product db pid = .error (.http 500 "Database not available")) ∧
    (∀ s, db = some s → isValidObjectId pid = false →
      get_product db pid = .error (.http 400 "Invalid product id")) ∧
    (∀ s, db = some s → isValidObjectId pid = true → findById s.product pid = none →
      get_product db pid = .error (.http 404 "Product not found")) ∧
    ((ApiError.http 500 "Database not available") ≠ .http 400 "Invalid product id" ∧
     (ApiError.http 400 "Invalid product id") ≠ .http 404 "Product not found" ∧
     (ApiError.http 500 "Database not available") ≠ .http 404 "Product not found") := by
  refine ⟨?_, ?_, ?_, by simp, by simp, by simp⟩
  · intro h; subst h; rfl
  · intro s h hbad; subst h; simp [get_product, hbad]
  · intro s h hgood habs; subst h; simp [get_product, hgood, habs]

/-- C4 (witness): the three error branches at concrete inputs. -/
theorem C4_get_product_errors_witness :
    get_product none "zz" = .error (.http 500 "Database not available") ∧
    get_product (some ⟨[], []⟩) "zz" = .error (.http 400 "Invalid product id") ∧
    get_product (some ⟨[], []⟩) "0123456789abcdef01234567" =
      .error (.http 404 "Product not found") :=
  ⟨(C4_get_product_errors none "zz").1 rfl,
   (C4_get_product_errors (some ⟨[], []⟩) "zz").2.1 ⟨[], []⟩ rfl (by decide),
   (C4_get_product_errors (some ⟨[], []⟩) "0123456789abcdef01234567").2.2.1
     ⟨[], []⟩ rfl (by decide) rfl⟩

/-- C5: a `limit` outside [1,100] is rejected with a validation error before
the handler runs — the outcome does not depend on the store at all; an
omitted `limit` behaves as 24; `limit=1` yields at most one record and
`limit=100` at most 100. -/
theorem C5_limit_validation (db db' : Option Store) (p : ListParams) (l : Int) :
    ((l < 1 ∨ 100 < l) →
      list_products db p (some l) =
        .error (.validation "limit: ensure the value is in range [1, 100]") ∧
      list_products db p (some l) = list_products db' p (some l)) ∧
    (list_products db p none = list_products db p (some 24)) ∧
    (∀ outs, list_products db p (some 1) = .ok outs → outs.length ≤ 1) ∧
    (∀ outs, list_products db p (some 100) = .ok outs → outs.length ≤ 100) := by
  refine ⟨?_, rfl, ?_, ?_⟩
  · intro h
    constructor <;> simp [list_products, h]
  · intro outs houts
    cases db with
    | none =>
      simp [list_products] at houts
      subst houts
      simp
    | some s =>
      simp [list_products] at houts
      have := serializeAll_length houts
      rw [this]
      calc ((s.product.filter fun d => docMatches d (buildProductFilter p)).take
              (Int.toNat 1)).length ≤ Int.toNat 1 := List.length_take_le _ _
        _ ≤ 1 := by decide
  · intro outs houts
    cases db with
    | none =>
      simp [list_products] at houts
      subst houts
      simp
    | some s =>
      simp [list_products] at houts
      have := serializeAll_length houts
      rw [this]
      calc ((s.product.filter fun d => docMatches d (buildProductFilter p)).take
              (Int.toNat 100)).length ≤ Int.toNat 100 := List.length_take_le _ _
        _ ≤ 100 := by decide

/-- C5 (witness): `limit=0` is rejected regardless of the store; `limit=1`
over an empty store returns 0 ≤ 1 records. -/
theorem C5_limit_validation_witness :
    list_products (some ⟨[], []⟩) {} (some 0) =
      .error (.validation "limit: ensure the value is in range [1, 100]") ∧
    ([] : List ProductOut).length ≤ 1 ∧ ([] : List ProductOut).length ≤ 100 :=
  ⟨((C5_limit_validation (some ⟨[], []⟩) none {} 0).1 (by decide)).1,
   (C5_limit_validation (some ⟨[], []⟩) none {} 0).2.2.1 [] rfl,
   (C5_limit_validation (some ⟨[], []⟩) none {} 0).2.2.2 [] rfl⟩

/-- C6: seeding is idempotent per collection — on an empty store it inserts
the 3 fixed banners and 3 fixed products and reports (3, 3); each collection
is decided independently by its own emptiness, a non-empty collection
receiving nothing and reporting 0 whatever the other holds; and any second
call on the store a first call produced reports (0, 0) and leaves the store
unchanged. -/
theorem C6_seed_idempotent (s : Store) :
    (seed_data (some ⟨[], []⟩) = .ok ⟨⟨seedBanners, seedProducts⟩, 3, 3⟩) ∧
    (s.banner = [] → ∃ r, seed_data (some s) = .ok r ∧
      r.store.banner = s.banner ++ seedBanners ∧ r.banners = 3) ∧
    (s.banner ≠ [] → ∃ r, seed_data (some s) = .ok r ∧
      r.store.banner = s.banner ∧ r.banners = 0) ∧
    (s.product = [] → ∃ r, seed_data (some s) = .ok r ∧
      r.store.product = s.product ++ seedProducts ∧ r.products = 3) ∧
    (s.product ≠ [] → ∃ r, seed_data (some s) = .ok r ∧
      r.store.product = s.product ∧ r.products = 0) ∧
    (∀ r, seed_data (some s) = .ok r →
      seed_data (some r.store) = .ok ⟨r.store, 0, 0⟩) := by
  have hB3 : seedBanners.length = 3 := rfl
  have hP3 : seedProducts.length = 3 := rfl
  refine ⟨rfl, ?_, ?_, ?_, ?_, ?_⟩
  · intro hb
    have hlen : s.banner.length = 0 := by simp [hb]
    exact ⟨_, rfl, by simp [hlen], by simp [hlen, hB3]⟩
  · intro hb
    have hlen : s.banner.length ≠ 0 := by simpa using hb
    exact ⟨_, rfl, by simp [hlen], by simp [hlen]⟩
  · intro hp
    have hlen : s.product.length = 0 := by simp [hp]
    exact ⟨_, rfl, by simp [hlen], by simp [hlen, hP3]⟩
  · intro hp
    have hlen : s.product.length ≠ 0 := by simpa using hp
    exact ⟨_, rfl, by simp [hlen], by simp [hlen]⟩
  · intro r hr
    injection hr with h'
    subst h'
    have hbne : (if s.banner.length = 0 then s.banner ++ seedBanners else s.banner).length ≠ 0 := by
      by_cases hb : s.banner.length = 0 <;> simp [hb, hB3]
    have hpne : (if s.product.length = 0 then s.product ++ seedProducts else s.product).length ≠ 0 := by
      by_cases hp : s.product.length = 0 <;> simp [hp, hP3]
    simp [seed_data, hbne, hpne]

/-- C6 (witness): seeding the empty store yields (3, 3); seeding the result
again yields (0, 0) and the same store. -/
theorem C6_seed_idempotent_witness :
    seed_data (some ⟨[], []⟩) = .ok ⟨⟨seedBanners, seedProducts⟩, 3, 3⟩ ∧
    seed_data (some ⟨seedBanners, seedProducts⟩) =
      .ok ⟨⟨seedBanners, seedProducts⟩, 0, 0⟩ :=
  ⟨(C6_seed_idempotent ⟨[], []⟩).1,
   (C6_seed_idempotent ⟨[], []⟩).2.2.2.2.2 ⟨⟨seedBanners, seedProducts⟩, 3, 3⟩
     (C6_seed_idempotent ⟨[], []⟩).1⟩

/-- C7 (counterexample): a candidate product whose `title` is the empty
string is accepted — validation succeeds and the write endpoint inserts it —
because the schema declares `title: str` with no non-emptiness constraint. -/
theorem C7_counterexample :
    (validate_product
      [("title", BVal.str ""), ("price", BVal.num 1000), ("category", BVal.str "Men")]).isOk
        = true ∧
    (create_product (some ⟨[], []⟩)
      [("title", BVal.str ""), ("price", BVal.num 1000), ("category", BVal.str "Men")]).isOk
        = true :=
  ⟨rfl, rfl⟩

/-- C7 (amended): product validation requires `title` to be present as text —
an absent or null `title` is rejected — but emptiness is not checked: the
empty-string title passes validation (with declared defaults filled in). -/
theorem C7_title_required (d : Doc) :
    (dget d "title" = none → ∃ e, validate_product d = .error e) ∧
    (dget d "title" = some BVal.null → ∃ e, validate_product d = .error e) ∧
    validate_product
        [("title", BVal.str ""), ("price", BVal.num 1000), ("category", BVal.str "Men")] =
      .ok ⟨"", none, 1000, "Men", [], ["S", "M", "L", "XL"],
        true, false, false, false, none, false, none⟩ := by
  refine ⟨?_, ?_, rfl⟩
  · intro h
    exact ⟨"title: Field required", by simp [validate_product, h, vReqStr]⟩
  · intro h
    exact ⟨"title: Input should be a valid string", by simp [validate_product, h, vReqStr]⟩

/-- C7 (witness): a candidate with no `title` key is rejected. -/
theorem C7_title_required_witness :
    ∃ e, validate_product [("price", BVal.num 1000), ("category", BVal.str "Men")] =
      .error e :=
  (C7_title_required [("price", BVal.num 1000), ("category", BVal.str "Men")]).1 rfl
